import Mathlib

/-!
# pkg/upstream/cluster/cluster.go

A shallow embedding of the cluster aggregate of `pkg/upstream/cluster/cluster.go`
(`NewCluster`, `newSimpleCluster`, the `simpleCluster` methods and the `clusterInfo`
accessors) together with the properties of its wiring.

Go pointers are indices into the per-type stores of a `World`; an allocation appends
to the store, a dereference is a lookup, and a lookup that fails makes the enclosing
operation return `none`. Calls into collaborators are also written to `World.trace`,
in program order, so that the number and the order of the calls can be stated.
-/

namespace Cluster

/-! ## Types and functions declared outside cluster.go -/

/-- The collaborator types that cluster.go only passes around. -/
structure Types where
  /-- Go type v2.LBSubsetConfig -/
  LBSubSetConfig : Type
  /-- Go type v2.CircuitBreakers -/
  CirBreThresholds : Type
  /-- Go type v2.TLSConfig -/
  TLSConfig : Type
  /-- The fields of v2.HealthCheck other than ServiceName -/
  HealthCheckSettings : Type
  /-- Go type types.ClusterStats -/
  ClusterStats : Type
  /-- Go type types.LBSubsetInfo -/
  LBSubsetInfo : Type
  /-- Go type types.ResourceManager -/
  ResourceManager : Type
  /-- Go type types.LoadBalancer -/
  LoadBalancer : Type
  /-- Go type types.TLSContextManager -/
  TLSContextManager : Type

/-- Go type v2.ClusterType (a string type). -/
abbrev ClusterType := String

/-- Go type v2.LbType (a string type). -/
abbrev LbType := String

/-- Go type types.LoadBalancerType (a string type). -/
abbrev LoadBalancerType := String

/-- The Go conversion `types.LoadBalancerType(x)` of a `v2.LbType`. -/
def toLoadBalancerType (x : LbType) : LoadBalancerType := x

/-- Pointer `*clusterInfo`. -/
abbrev InfoRef := Nat

/-- Pointer `*hostSet`. -/
abbrev HostSetRef := Nat

/-- A `types.HealthChecker` handle. -/
abbrev HealthCheckerRef := Nat

/-- Pointer `*simpleCluster`. -/
abbrev ClusterRef := Nat

/-- Modelled from the spec: types.Host is declared outside cluster.go; a host is a
network address, metadata used for subset matching, and a health flag. -/
structure Host where
  address : String
  metadata : List (String × String)
  health : Bool
deriving DecidableEq, Repr

/-- Go type v2.HealthCheck: cluster.go reads only ServiceName. -/
structure HealthCheck (T : Types) where
  ServiceName : String
  settings : T.HealthCheckSettings

/-- Go type v2.Cluster, with the fields cluster.go reads. -/
structure Config (T : Types) where
  Name : String
  ClusterType : ClusterType
  LbType : LbType
  MaxRequestPerConn : Nat
  ConnBufferLimitBytes : Nat
  LBSubSetConfig : T.LBSubSetConfig
  CirBreThresholds : T.CirBreThresholds
  TLS : T.TLSConfig
  HealthCheck : HealthCheck T

/-- Struct clusterInfo (cluster.go:118-128); the nilable tlsMng is an `Option`. -/
structure clusterInfo (T : Types) where
  name : String
  clusterType : ClusterType
  lbType : LoadBalancerType
  connBufferLimitBytes : Nat
  maxRequestsPerConn : Nat
  resourceManager : T.ResourceManager
  stats : T.ClusterStats
  lbSubsetInfo : T.LBSubsetInfo
  tlsMng : Option T.TLSContextManager

/-- Struct simpleCluster (cluster.go:35-40); the nilable healthChecker is an `Option`. -/
structure simpleCluster (T : Types) where
  info : InfoRef
  healthChecker : Option HealthCheckerRef
  lbInstance : T.LoadBalancer
  hostSet : HostSetRef

/-- A value of Go type types.HealthCheckCb. The function literal of cluster.go:78-82 is
the closure `refreshOnChange hostSet`, holding its captured variable; a callback handed
in by another package is `external`. -/
inductive HealthCheckCb where
  | refreshOnChange (hostSet : HostSetRef)
  | external (id : Nat)
deriving DecidableEq, Repr

/-- A value of Go type types.MemberUpdateCallback. The method value
`cluster.healthChecker.OnClusterMemberUpdate` of cluster.go:83 is
`OnClusterMemberUpdate hc`. -/
inductive MemberUpdateCb where
  | OnClusterMemberUpdate (hc : HealthCheckerRef)
  | external (id : Nat)
deriving DecidableEq, Repr

/-- Modelled from the spec: struct hostSet is declared outside cluster.go; it holds the
full host list, the derived healthy subset and the membership-update observers. The
literal `&hostSet{}` is the value with three empty lists. -/
structure hostSet where
  allHosts : List Host
  healthyHosts : List Host
  updateCallbacks : List MemberUpdateCb
deriving DecidableEq, Repr

/-- Modelled from the spec: the health checker is declared outside cluster.go; it is
bound to a probe configuration and a cluster and owns the list of completion
observers. -/
structure healthChecker (T : Types) where
  config : HealthCheck T
  cluster : ClusterRef
  hostCheckCompleteCbs : List HealthCheckCb

/-- A function handed to utils.GoWithRecover. -/
inductive Task where
  | healthCheckerStart (hc : HealthCheckerRef)
deriving DecidableEq, Repr

/-- One call into a collaborator, as recorded in the trace. -/
inductive Event (T : Types) where
  | Errorf (err : String)
  | Infof (name : String)
  | CreateHealthCheck (cfg : HealthCheck T) (cluster : ClusterRef) (hc : HealthCheckerRef)
  | AddHostCheckCompleteCb (hc : HealthCheckerRef) (cb : HealthCheckCb)
  | AdddMemberUpdateCb (hs : HostSetRef) (cb : MemberUpdateCb)
  | GoWithRecover (task : Task)
  | UpdateHosts (hs : HostSetRef) (newHosts : List Host)
  | RemoveHosts (hs : HostSetRef) (addrs : List String)
  | refreshHealthHosts (hs : HostSetRef) (host : Host)
  | memberUpdate (cb : MemberUpdateCb) (hs : HostSetRef)

/-- The heap and the call trace. -/
structure World (T : Types) where
  infos : List (clusterInfo T)
  hostSets : List hostSet
  healthCheckers : List (healthChecker T)
  clusters : List (simpleCluster T)
  trace : List (Event T)

/-- The empty heap. -/
def World.empty (T : Types) : World T := ⟨[], [], [], [], []⟩

/-- The functions cluster.go calls whose bodies are outside cluster.go. -/
structure Collab (T : Types) where
  /-- Go function newClusterStats -/
  newClusterStats : String → T.ClusterStats
  /-- Go function NewLBSubsetInfo -/
  NewLBSubsetInfo : T.LBSubSetConfig → T.LBSubsetInfo
  /-- Go method types.LBSubsetInfo.IsEnabled -/
  IsEnabled : T.LBSubsetInfo → Bool
  /-- Go function NewResourceManager -/
  NewResourceManager : T.CirBreThresholds → T.ResourceManager
  /-- Go function NewLoadBalancer -/
  NewLoadBalancer : LoadBalancerType → HostSetRef → T.LoadBalancer
  /-- Go function NewSubsetLoadBalancer -/
  NewSubsetLoadBalancer :
    LoadBalancerType → HostSetRef → T.ClusterStats → T.LBSubsetInfo → T.LoadBalancer
  /-- What building the TLS context from the settings and the cluster info (the pointer
  and the struct it points to) comes to: a manager, or an error message. -/
  buildTLSContext :
    T.TLSConfig → InfoRef → clusterInfo T → Except String T.TLSContextManager

variable {T : Types}

/-- Modelled from the spec: mtls.NewTLSClientContextManager is outside cluster.go; the
constructor may fail, and a failed construction yields no manager. The result is the Go
pair (manager, error). -/
def NewTLSClientContextManager (K : Collab T) (cfg : T.TLSConfig) (info : InfoRef)
    (w : World T) : Option (Option T.TLSContextManager × Option String) := do
  let ci ← w.infos[info]?
  match K.buildTLSContext cfg info ci with
  | .ok mgr => pure (some mgr, none)
  | .error err => pure (none, some err)

/-! ## The host set (collaborator of the same package) -/

/-- The events of notifying the registered membership observers, one per observer. -/
def hostSet.notify (hs : HostSetRef) (cbs : List MemberUpdateCb) : List (Event T) :=
  cbs.map (fun cb => Event.memberUpdate cb hs)

/-- Modelled from the spec: hostSet.UpdateHosts is outside cluster.go; it replaces the
full membership with the given hosts, rederives the healthy subset, and then invokes
every registered membership-update callback once. -/
def hostSet.UpdateHosts (hs : HostSetRef) (newHosts : List Host) (w : World T) :
    Option (World T) := do
  let s ← w.hostSets[hs]?
  let s1 : hostSet :=
    { s with allHosts := newHosts, healthyHosts := newHosts.filter (fun h => h.health) }
  pure { w with
    hostSets := w.hostSets.set hs s1
    trace := w.trace ++ [Event.UpdateHosts hs newHosts] ++ hostSet.notify hs s.updateCallbacks }

/-- Modelled from the spec: hostSet.RemoveHosts is outside cluster.go; it removes every
current host whose address is among the given ones, leaves the others untouched, and
triggers the membership-update callbacks. -/
def hostSet.RemoveHosts (hs : HostSetRef) (addrs : List String) (w : World T) :
    Option (World T) := do
  let s ← w.hostSets[hs]?
  let s1 : hostSet :=
    { s with
      allHosts := s.allHosts.filter (fun h => !addrs.contains h.address)
      healthyHosts := s.healthyHosts.filter (fun h => !addrs.contains h.address) }
  pure { w with
    hostSets := w.hostSets.set hs s1
    trace := w.trace ++ [Event.RemoveHosts hs addrs] ++ hostSet.notify hs s.updateCallbacks }

/-- Modelled from the spec: hostSet.refreshHealthHosts is outside cluster.go; it
recomputes the healthy subset given one host's updated health flag: a member that
became healthy joins the healthy subset, a host that became unhealthy leaves it. -/
def hostSet.refreshHealthHosts (hs : HostSetRef) (host : Host) (w : World T) :
    Option (World T) := do
  let s ← w.hostSets[hs]?
  let others := s.healthyHosts.filter (fun h => h.address != host.address)
  let isMember := s.allHosts.any (fun h => h.address == host.address)
  let s1 : hostSet :=
    { s with healthyHosts := if host.health && isMember then others ++ [host] else others }
  pure { w with
    hostSets := w.hostSets.set hs s1
    trace := w.trace ++ [Event.refreshHealthHosts hs host] }

/-- Modelled from the spec: hostSet.AdddMemberUpdateCb is outside cluster.go; it
registers one more membership-update observer. -/
def hostSet.AdddMemberUpdateCb (hs : HostSetRef) (cb : MemberUpdateCb) (w : World T) :
    Option (World T) := do
  let s ← w.hostSets[hs]?
  pure { w with
    hostSets := w.hostSets.set hs { s with updateCallbacks := s.updateCallbacks ++ [cb] }
    trace := w.trace ++ [Event.AdddMemberUpdateCb hs cb] }

/-- Modelled from the spec: the membership read of types.HostSet (the full host list). -/
def hostSet.Hosts (hs : HostSetRef) (w : World T) : Option (List Host) :=
  (w.hostSets[hs]?).map (fun s => s.allHosts)

/-! ## The health checker (collaborator) -/

/-- Modelled from the spec: healthcheck.CreateHealthCheck is outside cluster.go; the
factory takes the probe configuration and a cluster reference and returns a new
checker with no observer yet. -/
def CreateHealthCheck (cfg : HealthCheck T) (cluster : ClusterRef) (w : World T) :
    HealthCheckerRef × World T :=
  (w.healthCheckers.length,
   { w with
     healthCheckers := w.healthCheckers ++ [⟨cfg, cluster, []⟩]
     trace := w.trace ++ [Event.CreateHealthCheck cfg cluster w.healthCheckers.length] })

/-- Modelled from the spec: HealthChecker.AddHostCheckCompleteCb is outside cluster.go;
it adds one observer to the checker's list of completion observers. -/
def healthChecker.AddHostCheckCompleteCb (hc : HealthCheckerRef) (cb : HealthCheckCb)
    (w : World T) : Option (World T) := do
  let h ← w.healthCheckers[hc]?
  pure { w with
    healthCheckers :=
      w.healthCheckers.set hc { h with hostCheckCompleteCbs := h.hostCheckCompleteCbs ++ [cb] }
    trace := w.trace ++ [Event.AddHostCheckCompleteCb hc cb] }

/-- Modelled from the spec: utils.GoWithRecover is outside cluster.go; it hands the
function to a supervised background task and returns. -/
def GoWithRecover (task : Task) (w : World T) : World T :=
  { w with trace := w.trace ++ [Event.GoWithRecover task] }

/-! ## cluster.go -/

/-- The function literal of cluster.go:78-82, applied to its arguments; `hostSet` is the
variable it captures. -/
def defaultHealthCheckCb (hostSet : HostSetRef) (host : Host) (changedState isHealthy : Bool)
    (w : World T) : Option (World T) :=
  if changedState then
    Cluster.hostSet.refreshHealthHosts hostSet host w
  else
    pure w

/-- Function newSimpleCluster (cluster.go:42-90). -/
def newSimpleCluster (K : Collab T) (clusterConfig : Config T) (w : World T) :
    Option (ClusterRef × World T) := do
  let info : InfoRef := w.infos.length
  let w : World T := { w with infos := w.infos ++ [
    { name := clusterConfig.Name
      clusterType := clusterConfig.ClusterType
      maxRequestsPerConn := clusterConfig.MaxRequestPerConn
      connBufferLimitBytes := clusterConfig.ConnBufferLimitBytes
      stats := K.newClusterStats clusterConfig.Name
      lbSubsetInfo := K.NewLBSubsetInfo clusterConfig.LBSubSetConfig
      lbType := toLoadBalancerType clusterConfig.LbType
      resourceManager := K.NewResourceManager clusterConfig.CirBreThresholds
      tlsMng := none }] }
  let i ← w.infos[info]?
  -- host set
  let hostSet : HostSetRef := w.hostSets.length
  let w : World T := { w with hostSets := w.hostSets ++ [⟨[], [], []⟩] }
  -- load balance
  let lb : T.LoadBalancer :=
    if K.IsEnabled i.lbSubsetInfo then
      K.NewSubsetLoadBalancer i.lbType hostSet i.stats i.lbSubsetInfo
    else
      K.NewLoadBalancer i.lbType hostSet
  -- tls mng
  let (mgr, err) ← NewTLSClientContextManager K clusterConfig.TLS info w
  let w : World T := match err with
    | some e => { w with trace := w.trace ++ [Event.Errorf e] }
    | none => w
  let i ← w.infos[info]?
  let w : World T := { w with infos := w.infos.set info { i with tlsMng := mgr } }
  let cluster : ClusterRef := w.clusters.length
  let w : World T := { w with clusters := w.clusters ++ [
    { info := info
      lbInstance := lb
      hostSet := hostSet
      healthChecker := none }] }
  -- health check
  if clusterConfig.HealthCheck.ServiceName != "" then
    let w : World T := { w with trace := w.trace ++ [Event.Infof clusterConfig.Name] }
    let (hc, w) := CreateHealthCheck clusterConfig.HealthCheck cluster w
    let c ← w.clusters[cluster]?
    let w : World T := { w with clusters := w.clusters.set cluster { c with healthChecker := some hc } }
    -- add default call backs, for change host healthy status
    let c ← w.clusters[cluster]?
    let hc1 ← c.healthChecker
    let w ← healthChecker.AddHostCheckCompleteCb hc1 (HealthCheckCb.refreshOnChange hostSet) w
    let c ← w.clusters[cluster]?
    let hc2 ← c.healthChecker
    let w ← Cluster.hostSet.AdddMemberUpdateCb hostSet (MemberUpdateCb.OnClusterMemberUpdate hc2) w
    let c ← w.clusters[cluster]?
    let hc3 ← c.healthChecker
    let w : World T := GoWithRecover (Task.healthCheckerStart hc3) w
    pure (cluster, w)
  else
    pure (cluster, w)

/-- Function NewCluster (cluster.go:29-32). -/
def NewCluster (K : Collab T) (clusterConfig : Config T) (w : World T) :
    Option (ClusterRef × World T) :=
  newSimpleCluster K clusterConfig w

/-- Method simpleCluster.UpdateHosts (cluster.go:92-94). -/
def simpleCluster.UpdateHosts (sc : ClusterRef) (newHosts : List Host) (w : World T) :
    Option (World T) := do
  let c ← w.clusters[sc]?
  hostSet.UpdateHosts c.hostSet newHosts w

/-- Method simpleCluster.RemoveHosts (cluster.go:96-98). -/
def simpleCluster.RemoveHosts (sc : ClusterRef) (addrs : List String) (w : World T) :
    Option (World T) := do
  let c ← w.clusters[sc]?
  hostSet.RemoveHosts c.hostSet addrs w

/-- Method simpleCluster.Info (cluster.go:100-102). -/
def simpleCluster.Info (sc : ClusterRef) (w : World T) : Option InfoRef := do
  let c ← w.clusters[sc]?
  pure c.info

/-- Method simpleCluster.HostSet (cluster.go:104-106). -/
def simpleCluster.HostSet (sc : ClusterRef) (w : World T) : Option HostSetRef := do
  let c ← w.clusters[sc]?
  pure c.hostSet

/-- Method simpleCluster.LBInstance (cluster.go:108-110). -/
def simpleCluster.LBInstance (sc : ClusterRef) (w : World T) : Option T.LoadBalancer := do
  let c ← w.clusters[sc]?
  pure c.lbInstance

/-- Method simpleCluster.AddHealthCheckCallbacks (cluster.go:112-116). -/
def simpleCluster.AddHealthCheckCallbacks (sc : ClusterRef) (cb : HealthCheckCb)
    (w : World T) : Option (World T) := do
  let c ← w.clusters[sc]?
  match c.healthChecker with
  | some hc => healthChecker.AddHostCheckCompleteCb hc cb w
  | none => pure w

/-- Method clusterInfo.Name (cluster.go:130-132). -/
def clusterInfo.Name (ci : InfoRef) (w : World T) : Option String := do
  let i ← w.infos[ci]?
  pure i.name

/-- Method clusterInfo.ClusterType (cluster.go:134-136). -/
def clusterInfo.ClusterType (ci : InfoRef) (w : World T) : Option ClusterType := do
  let i ← w.infos[ci]?
  pure i.clusterType

/-- Method clusterInfo.LbType (cluster.go:138-140). -/
def clusterInfo.LbType (ci : InfoRef) (w : World T) : Option LoadBalancerType := do
  let i ← w.infos[ci]?
  pure i.lbType

/-- Method clusterInfo.ConnBufferLimitBytes (cluster.go:142-144). -/
def clusterInfo.ConnBufferLimitBytes (ci : InfoRef) (w : World T) : Option Nat := do
  let i ← w.infos[ci]?
  pure i.connBufferLimitBytes

/-- Method clusterInfo.MaxRequestsPerConn (cluster.go:146-148). -/
def clusterInfo.MaxRequestsPerConn (ci : InfoRef) (w : World T) : Option Nat := do
  let i ← w.infos[ci]?
  pure i.maxRequestsPerConn

/-- Method clusterInfo.Stats (cluster.go:150-152). -/
def clusterInfo.Stats (ci : InfoRef) (w : World T) : Option T.ClusterStats := do
  let i ← w.infos[ci]?
  pure i.stats

/-- Method clusterInfo.ResourceManager (cluster.go:154-156). -/
def clusterInfo.ResourceManager (ci : InfoRef) (w : World T) : Option T.ResourceManager := do
  let i ← w.infos[ci]?
  pure i.resourceManager

/-- Method clusterInfo.TLSMng (cluster.go:158-160); the inner `none` is Go's nil. -/
def clusterInfo.TLSMng (ci : InfoRef) (w : World T) : Option (Option T.TLSContextManager) := do
  let i ← w.infos[ci]?
  pure i.tlsMng

/-- Method clusterInfo.LbSubsetInfo (cluster.go:162-164). -/
def clusterInfo.LbSubsetInfo (ci : InfoRef) (w : World T) : Option T.LBSubsetInfo := do
  let i ← w.infos[ci]?
  pure i.lbSubsetInfo

/-! ## Operations on a built cluster -/

/-- The operations a cluster is subject to after newSimpleCluster returned: the methods
of types.Cluster, the accessors of its types.ClusterInfo, and the health checker
reporting a completed check to the completion callbacks registered on it. A caller of
AddHealthCheckCallbacks brings a callback of its own, `external id`: the closure of
cluster.go:78-82 is created in newSimpleCluster and nowhere else. -/
inductive Op where
  | UpdateHosts (newHosts : List Host)
  | RemoveHosts (addrs : List String)
  | Info
  | HostSet
  | LBInstance
  | AddHealthCheckCallbacks (id : Nat)
  | hostCheckComplete (host : Host) (changedState isHealthy : Bool)
  | Name
  | ClusterType
  | LbType
  | ConnBufferLimitBytes
  | MaxRequestsPerConn
  | Stats
  | ResourceManager
  | TLSMng
  | LbSubsetInfo
deriving DecidableEq, Repr

/-- Calling one completion callback. The closure of cluster.go:78-82 runs its body; the
body of a callback of another package is not part of this package. -/
def HealthCheckCb.call (cb : HealthCheckCb) (host : Host) (changedState isHealthy : Bool)
    (w : World T) : Option (World T) :=
  match cb with
  | .refreshOnChange hostSet => defaultHealthCheckCb hostSet host changedState isHealthy w
  | .external _ => pure w

/-- Calling a list of completion callbacks in registration order. -/
def callAll (cbs : List HealthCheckCb) (host : Host) (changedState isHealthy : Bool)
    (w : World T) : Option (World T) :=
  match cbs with
  | [] => pure w
  | cb :: rest => do
    let w1 ← cb.call host changedState isHealthy w
    callAll rest host changedState isHealthy w1

/-- Running one operation on the cluster `sc`. A read succeeds when its dereferences
do and leaves the world as it is. For hostCheckComplete, modelled from the spec, the
cluster's health checker (when there is one) calls the completion callbacks registered
on it with (host, changedState, isHealthy). -/
def Op.run (sc : ClusterRef) (op : Op) (w : World T) : Option (World T) :=
  match op with
  | .UpdateHosts newHosts => simpleCluster.UpdateHosts sc newHosts w
  | .RemoveHosts addrs => simpleCluster.RemoveHosts sc addrs w
  | .Info => (simpleCluster.Info sc w).map (fun _ => w)
  | .HostSet => (simpleCluster.HostSet sc w).map (fun _ => w)
  | .LBInstance => (simpleCluster.LBInstance sc w).map (fun _ => w)
  | .AddHealthCheckCallbacks id =>
    simpleCluster.AddHealthCheckCallbacks sc (HealthCheckCb.external id) w
  | .hostCheckComplete host changedState isHealthy => do
    let c ← w.clusters[sc]?
    match c.healthChecker with
    | none => pure w
    | some hc => do
      let h ← w.healthCheckers[hc]?
      callAll h.hostCheckCompleteCbs host changedState isHealthy w
  | .Name => ((simpleCluster.Info sc w).bind (clusterInfo.Name · w)).map (fun _ => w)
  | .ClusterType =>
    ((simpleCluster.Info sc w).bind (clusterInfo.ClusterType · w)).map (fun _ => w)
  | .LbType => ((simpleCluster.Info sc w).bind (clusterInfo.LbType · w)).map (fun _ => w)
  | .ConnBufferLimitBytes =>
    ((simpleCluster.Info sc w).bind (clusterInfo.ConnBufferLimitBytes · w)).map (fun _ => w)
  | .MaxRequestsPerConn =>
    ((simpleCluster.Info sc w).bind (clusterInfo.MaxRequestsPerConn · w)).map (fun _ => w)
  | .Stats => ((simpleCluster.Info sc w).bind (clusterInfo.Stats · w)).map (fun _ => w)
  | .ResourceManager =>
    ((simpleCluster.Info sc w).bind (clusterInfo.ResourceManager · w)).map (fun _ => w)
  | .TLSMng => ((simpleCluster.Info sc w).bind (clusterInfo.TLSMng · w)).map (fun _ => w)
  | .LbSubsetInfo =>
    ((simpleCluster.Info sc w).bind (clusterInfo.LbSubsetInfo · w)).map (fun _ => w)

/-- Running a sequence of operations on the cluster `sc`, in order. -/
def runOps (sc : ClusterRef) (ops : List Op) (w : World T) : Option (World T) :=
  match ops with
  | [] => pure w
  | op :: rest => do
    let w1 ← op.run sc w
    runOps sc rest w1

/-- The number of calls of hostSet.refreshHealthHosts in a trace. -/
def refreshCalls (tr : List (Event T)) : Nat :=
  tr.countP (fun e => match e with
    | .refreshHealthHosts _ _ => true
    | _ => false)

/-! ## The result of newSimpleCluster, written out -/

/-- The clusterInfo struct literal of cluster.go:43-52. -/
def infoLiteral (K : Collab T) (c : Config T) : clusterInfo T :=
  { name := c.Name
    clusterType := c.ClusterType
    maxRequestsPerConn := c.MaxRequestPerConn
    connBufferLimitBytes := c.ConnBufferLimitBytes
    stats := K.newClusterStats c.Name
    lbSubsetInfo := K.NewLBSubsetInfo c.LBSubSetConfig
    lbType := toLoadBalancerType c.LbType
    resourceManager := K.NewResourceManager c.CirBreThresholds
    tlsMng := none }

/-- The struct of the cluster newSimpleCluster builds. -/
def builtCluster (K : Collab T) (c : Config T) (w : World T) : simpleCluster T :=
  { info := w.infos.length
    healthChecker :=
      if c.HealthCheck.ServiceName != "" then some w.healthCheckers.length else none
    lbInstance :=
      if K.IsEnabled (K.NewLBSubsetInfo c.LBSubSetConfig) then
        K.NewSubsetLoadBalancer (toLoadBalancerType c.LbType) w.hostSets.length
          (K.newClusterStats c.Name) (K.NewLBSubsetInfo c.LBSubSetConfig)
      else
        K.NewLoadBalancer (toLoadBalancerType c.LbType) w.hostSets.length
    hostSet := w.hostSets.length }

/-- The host set newSimpleCluster allocates, as it is when newSimpleCluster returns. -/
def builtHostSet (c : Config T) (w : World T) : hostSet :=
  ⟨[], [], if c.HealthCheck.ServiceName != "" then
    [MemberUpdateCb.OnClusterMemberUpdate w.healthCheckers.length] else []⟩

/-- The log call of cluster.go:64-66, made when the TLS constructor reported an error. -/
def tlsErrorLog (r : Except String T.TLSContextManager) : List (Event T) :=
  match r with
  | .ok _ => []
  | .error e => [Event.Errorf e]

/-- The calls of the health check branch, cluster.go:74-87, in program order. -/
def healthCheckCalls (c : Config T) (w : World T) : List (Event T) :=
  if c.HealthCheck.ServiceName != "" then
    [ Event.Infof c.Name,
      Event.CreateHealthCheck c.HealthCheck w.clusters.length w.healthCheckers.length,
      Event.AddHostCheckCompleteCb w.healthCheckers.length
        (HealthCheckCb.refreshOnChange w.hostSets.length),
      Event.AdddMemberUpdateCb w.hostSets.length
        (MemberUpdateCb.OnClusterMemberUpdate w.healthCheckers.length),
      Event.GoWithRecover (Task.healthCheckerStart w.healthCheckers.length) ]
  else []

/-- The world newSimpleCluster leaves behind, field by field. -/
def builtWorld (K : Collab T) (c : Config T) (w : World T) : World T :=
  let hcOn : Bool := c.HealthCheck.ServiceName != ""
  let info := w.infos.length
  let hs := w.hostSets.length
  let sc := w.clusters.length
  let tls := K.buildTLSContext c.TLS info (infoLiteral K c)
  { infos := w.infos ++ [{ infoLiteral K c with
      tlsMng := match tls with
        | .ok mgr => some mgr
        | .error _ => none }]
    hostSets := w.hostSets ++ [builtHostSet c w]
    healthCheckers := w.healthCheckers ++
      (if hcOn then [⟨c.HealthCheck, sc, [HealthCheckCb.refreshOnChange hs]⟩] else [])
    clusters := w.clusters ++ [builtCluster K c w]
    trace := w.trace ++ tlsErrorLog tls ++ healthCheckCalls c w }

/-! ### What every operation leaves alone -/

/-- Relation between the world before and after an operation: the cluster and info
stores are the same, no host set or health checker is allocated or lost, and no
checker gains a closure of cluster.go:78-82. -/
def Frame (w w1 : World T) : Prop :=
  w1.clusters = w.clusters ∧ w1.infos = w.infos ∧
  w1.hostSets.length = w.hostSets.length ∧
  ∀ (hc : HealthCheckerRef) (h : healthChecker T), w.healthCheckers[hc]? = some h →
    ∃ h1 : healthChecker T, w1.healthCheckers[hc]? = some h1 ∧
      ∀ hs, HealthCheckCb.refreshOnChange hs ∈ h1.hostCheckCompleteCbs →
        HealthCheckCb.refreshOnChange hs ∈ h.hostCheckCompleteCbs

/-- Every pointer reachable from the cluster `sc`, whose struct is `c`, is allocated. -/
def Inv (c : simpleCluster T) (sc : ClusterRef) (w : World T) : Prop :=
  w.clusters[sc]? = some c ∧ c.info < w.infos.length ∧ c.hostSet < w.hostSets.length ∧
  ∀ hc : HealthCheckerRef, c.healthChecker = some hc →
    ∃ h : healthChecker T, w.healthCheckers[hc]? = some h ∧
      ∀ hs, HealthCheckCb.refreshOnChange hs ∈ h.hostCheckCompleteCbs →
        hs < w.hostSets.length

/-! ## A concrete instance -/

/-- Concrete collaborator types: the subset configuration is its list of selectors, the
subset descriptor its enabled flag, the TLS settings a validity flag, and a load
balancer the triple (subset-wrapping, algorithm type, host set). -/
def exTypes : Types :=
  { LBSubSetConfig := List (List String)
    CirBreThresholds := Nat
    TLSConfig := Bool
    HealthCheckSettings := Nat
    ClusterStats := String
    LBSubsetInfo := Bool
    ResourceManager := Nat
    LoadBalancer := Bool × LoadBalancerType × HostSetRef
    TLSContextManager := String }

/-- Concrete collaborators over exTypes. -/
def exCollab : Collab exTypes :=
  { newClusterStats := fun name => name
    NewLBSubsetInfo := fun (cfg : List (List String)) => !cfg.isEmpty
    IsEnabled := fun (i : Bool) => i
    NewResourceManager := fun (t : Nat) => t
    NewLoadBalancer := fun ty hs => (false, ty, hs)
    NewSubsetLoadBalancer := fun ty hs _ _ => (true, ty, hs)
    buildTLSContext := fun (valid : Bool) _ _ =>
      if valid then Except.ok "ctx" else Except.error "bad tls" }

/-- A configuration with a health check and with TLS settings that fail to build. -/
def exConfig : Config exTypes :=
  { Name := "svc-a"
    ClusterType := "SIMPLE"
    LbType := "roundrobin"
    MaxRequestPerConn := 1024
    ConnBufferLimitBytes := 32768
    LBSubSetConfig := ([] : List (List String))
    CirBreThresholds := (7 : Nat)
    TLS := false
    HealthCheck := { ServiceName := "probe", settings := (3 : Nat) } }

/-- Two hosts. -/
def exHosts : List Host :=
  [⟨"10.0.0.1:8080", [], true⟩, ⟨"10.0.0.2:8080", [], false⟩]

/-- A cluster struct without a health checker. -/
def exCluster : simpleCluster exTypes :=
  { info := 0, healthChecker := none, lbInstance := (false, "roundrobin", 0), hostSet := 0 }

/-- A world holding one cluster without a health checker. -/
def exWorld : World exTypes :=
  { infos := [{ infoLiteral exCollab exConfig with tlsMng := none }]
    hostSets := [⟨[], [], []⟩]
    healthCheckers := []
    clusters := [exCluster]
    trace := [] }

/-- A world holding one cluster with a health checker, as newSimpleCluster wires it. -/
def exWorldChecked : World exTypes :=
  { infos := [{ infoLiteral exCollab exConfig with tlsMng := none }]
    hostSets := [⟨[], [], [MemberUpdateCb.OnClusterMemberUpdate 0]⟩]
    healthCheckers := [⟨exConfig.HealthCheck, 0, [HealthCheckCb.refreshOnChange 0]⟩]
    clusters := [{ exCluster with healthChecker := some 0 }]
    trace := [] }

/-! ## Theorems -/

/-- Function newSimpleCluster always returns: the new cluster is the next cluster
reference and the world is the one written out in builtWorld. -/
theorem newSimpleCluster_eq (K : Collab T) (c : Config T) (w : World T) :
    newSimpleCluster K c w = some (w.clusters.length, builtWorld K c w) := by
  unfold newSimpleCluster builtWorld NewTLSClientContextManager
  cases htls : K.buildTLSContext c.TLS w.infos.length (infoLiteral K c) <;>
  simp only [infoLiteral] at htls <;>
  by_cases hsn : c.HealthCheck.ServiceName = "" <;>
  simp [htls, hsn, infoLiteral, builtCluster, builtHostSet, tlsErrorLog, healthCheckCalls,
    CreateHealthCheck,
    healthChecker.AddHostCheckCompleteCb, hostSet.AdddMemberUpdateCb, GoWithRecover]

theorem Frame.refl (w : World T) : Frame w w :=
  ⟨rfl, rfl, rfl, fun _ h hh => ⟨h, hh, fun _ hm => hm⟩⟩

theorem Frame.trans {w w1 w2 : World T} (h1 : Frame w w1) (h2 : Frame w1 w2) :
    Frame w w2 := by
  obtain ⟨a1, b1, c1, d1⟩ := h1
  obtain ⟨a2, b2, c2, d2⟩ := h2
  refine ⟨a2.trans a1, b2.trans b1, c2.trans c1, ?_⟩
  intro hc h hh
  obtain ⟨k1, hk1, hm1⟩ := d1 hc h hh
  obtain ⟨k2, hk2, hm2⟩ := d2 hc k1 hk1
  exact ⟨k2, hk2, fun hs hm => hm1 hs (hm2 hs hm)⟩

theorem Inv.frame {c : simpleCluster T} {sc : ClusterRef} {w w1 : World T}
    (hi : Inv c sc w) (hf : Frame w w1) : Inv c sc w1 := by
  obtain ⟨a, b, d, e⟩ := hi
  obtain ⟨fa, fb, fd, fe⟩ := hf
  refine ⟨by rw [fa]; exact a, by rw [fb]; exact b, by rw [fd]; exact d, ?_⟩
  intro hc hhc
  obtain ⟨h, hh, hm⟩ := e hc hhc
  obtain ⟨h1, hh1, hm1⟩ := fe hc h hh
  exact ⟨h1, hh1, fun hs hin => by rw [fd]; exact hm hs (hm1 hs hin)⟩

/-- A lookup below the length of the store succeeds. -/
theorem lookup_of_lt {α : Type} (l : List α) (i : Nat) (h : i < l.length) :
    ∃ x, l[i]? = some x :=
  ⟨l[i], List.getElem?_eq_getElem h⟩

theorem hostSet.UpdateHosts_frame (hs : HostSetRef) (newHosts : List Host) (w : World T)
    (h : hs < w.hostSets.length) :
    ∃ w1, hostSet.UpdateHosts hs newHosts w = some w1 ∧ Frame w w1 := by
  obtain ⟨s, hs1⟩ := lookup_of_lt _ _ h
  unfold hostSet.UpdateHosts
  rw [hs1]
  exact ⟨_, rfl, rfl, rfl, by simp, fun _ k hk => ⟨k, hk, fun _ hm => hm⟩⟩

theorem hostSet.RemoveHosts_frame (hs : HostSetRef) (addrs : List String) (w : World T)
    (h : hs < w.hostSets.length) :
    ∃ w1, hostSet.RemoveHosts hs addrs w = some w1 ∧ Frame w w1 := by
  obtain ⟨s, hs1⟩ := lookup_of_lt _ _ h
  unfold hostSet.RemoveHosts
  rw [hs1]
  exact ⟨_, rfl, rfl, rfl, by simp, fun _ k hk => ⟨k, hk, fun _ hm => hm⟩⟩

theorem hostSet.refreshHealthHosts_frame (hs : HostSetRef) (host : Host) (w : World T)
    (h : hs < w.hostSets.length) :
    ∃ w1, hostSet.refreshHealthHosts hs host w = some w1 ∧ Frame w w1 ∧
      w1.healthCheckers = w.healthCheckers := by
  obtain ⟨s, hs1⟩ := lookup_of_lt _ _ h
  unfold hostSet.refreshHealthHosts
  rw [hs1]
  exact ⟨_, rfl, ⟨rfl, rfl, by simp, fun _ k hk => ⟨k, hk, fun _ hm => hm⟩⟩, rfl⟩

theorem healthChecker.AddHostCheckCompleteCb_frame (hc : HealthCheckerRef) (id : Nat)
    (w : World T) (h : healthChecker T) (hh : w.healthCheckers[hc]? = some h) :
    ∃ w1, healthChecker.AddHostCheckCompleteCb hc (HealthCheckCb.external id) w = some w1 ∧
      Frame w w1 := by
  have hlt : hc < w.healthCheckers.length := (List.getElem?_eq_some.1 hh).1
  unfold healthChecker.AddHostCheckCompleteCb
  rw [hh]
  refine ⟨_, rfl, rfl, rfl, rfl, ?_⟩
  intro hc1 k hk
  by_cases e : hc = hc1
  · subst e
    refine ⟨_, List.getElem?_set_self hlt, ?_⟩
    intro x hx
    have hkh : k = h := by rw [hh] at hk; exact (Option.some.inj hk).symm
    subst hkh
    simpa using hx
  · exact ⟨k, by simp [List.getElem?_set, e, hk], fun _ hm => hm⟩

theorem callAll_frame (host : Host) (changedState isHealthy : Bool) :
    ∀ (cbs : List HealthCheckCb) (w : World T),
      (∀ hs, HealthCheckCb.refreshOnChange hs ∈ cbs → hs < w.hostSets.length) →
      ∃ w1, callAll cbs host changedState isHealthy w = some w1 ∧ Frame w w1 ∧
        w1.healthCheckers = w.healthCheckers
  | [], w, _ => ⟨w, rfl, Frame.refl w, rfl⟩
  | cb :: rest, w, hall => by
    have step : ∃ w1, cb.call host changedState isHealthy w = some w1 ∧ Frame w w1 ∧
        w1.healthCheckers = w.healthCheckers := by
      cases cb with
      | external id => exact ⟨w, rfl, Frame.refl w, rfl⟩
      | refreshOnChange hs =>
        cases changedState with
        | false => exact ⟨w, rfl, Frame.refl w, rfl⟩
        | true =>
          have hlt := hall hs (List.mem_cons_self _ _)
          simpa [HealthCheckCb.call, defaultHealthCheckCb] using
            hostSet.refreshHealthHosts_frame hs host w hlt
    obtain ⟨w1, hw1, hf1, hk1⟩ := step
    have hall1 : ∀ hs, HealthCheckCb.refreshOnChange hs ∈ rest → hs < w1.hostSets.length := by
      intro hs hm
      rw [hf1.2.2.1]
      exact hall hs (List.mem_cons_of_mem _ hm)
    obtain ⟨w2, hw2, hf2, hk2⟩ := callAll_frame host changedState isHealthy rest w1 hall1
    exact ⟨w2, by simp [callAll, hw1, hw2], hf1.trans hf2, hk2.trans hk1⟩

/-- Every operation on a cluster whose pointers are allocated returns, and leaves the
cluster and info stores as they were. -/
theorem Op.run_frame (c : simpleCluster T) (sc : ClusterRef) (op : Op) (w : World T)
    (hi : Inv c sc w) : ∃ w1, op.run sc w = some w1 ∧ Frame w w1 := by
  obtain ⟨hc, hinfo, hhs, hchk⟩ := hi
  obtain ⟨i, hi1⟩ := lookup_of_lt _ _ hinfo
  cases op with
  | UpdateHosts newHosts =>
    simpa [Op.run, simpleCluster.UpdateHosts, hc] using
      hostSet.UpdateHosts_frame c.hostSet newHosts w hhs
  | RemoveHosts addrs =>
    simpa [Op.run, simpleCluster.RemoveHosts, hc] using
      hostSet.RemoveHosts_frame c.hostSet addrs w hhs
  | AddHealthCheckCallbacks id =>
    cases hk : c.healthChecker with
    | none =>
      exact ⟨w, by simp [Op.run, simpleCluster.AddHealthCheckCallbacks, hc, hk], Frame.refl w⟩
    | some k =>
      obtain ⟨h, hh, _⟩ := hchk k hk
      simpa [Op.run, simpleCluster.AddHealthCheckCallbacks, hc, hk] using
        healthChecker.AddHostCheckCompleteCb_frame k id w h hh
  | hostCheckComplete host changedState isHealthy =>
    cases hk : c.healthChecker with
    | none => exact ⟨w, by simp [Op.run, hc, hk], Frame.refl w⟩
    | some k =>
      obtain ⟨h, hh, hm⟩ := hchk k hk
      obtain ⟨w1, hw1, hf1, _⟩ :=
        callAll_frame host changedState isHealthy h.hostCheckCompleteCbs w hm
      exact ⟨w1, by simp [Op.run, hc, hk, hh, hw1], hf1⟩
  | _ =>
    exact ⟨w, by
      simp [Op.run, simpleCluster.Info, simpleCluster.HostSet, simpleCluster.LBInstance,
        clusterInfo.Name, clusterInfo.ClusterType, clusterInfo.LbType,
        clusterInfo.ConnBufferLimitBytes, clusterInfo.MaxRequestsPerConn, clusterInfo.Stats,
        clusterInfo.ResourceManager, clusterInfo.TLSMng, clusterInfo.LbSubsetInfo, hc, hi1],
      Frame.refl w⟩

/-- Every sequence of operations on a cluster whose pointers are allocated returns, and
leaves the cluster and info stores as they were. -/
theorem runOps_frame (c : simpleCluster T) (sc : ClusterRef) :
    ∀ (ops : List Op) (w : World T), Inv c sc w →
      ∃ w1, runOps sc ops w = some w1 ∧ Frame w w1
  | [], w, _ => ⟨w, rfl, Frame.refl w⟩
  | op :: rest, w, hi => by
    obtain ⟨w1, hw1, hf1⟩ := Op.run_frame c sc op w hi
    obtain ⟨w2, hw2, hf2⟩ := runOps_frame c sc rest w1 (hi.frame hf1)
    exact ⟨w2, by simp [runOps, hw1, hw2], hf1.trans hf2⟩

/-- Every pointer reachable from a cluster built by newSimpleCluster is allocated. -/
theorem builtWorld_inv (K : Collab T) (c : Config T) (w : World T) :
    Inv (builtCluster K c w) w.clusters.length (builtWorld K c w) := by
  refine ⟨by simp [builtWorld, builtCluster], by simp [builtWorld, builtCluster],
    by simp [builtWorld, builtCluster], ?_⟩
  intro hc hhc
  by_cases hsn : c.HealthCheck.ServiceName = ""
  · simp [builtCluster, hsn] at hhc
  · simp [builtCluster, hsn] at hhc
    subst hhc
    refine ⟨⟨c.HealthCheck, w.clusters.length,
      [HealthCheckCb.refreshOnChange w.hostSets.length]⟩, by simp [builtWorld, hsn], ?_⟩
    intro hs hm
    simp at hm
    subst hm
    simp [builtWorld]

/-- Every sequence of operations on a cluster built by newSimpleCluster returns. -/
theorem built_runOps (K : Collab T) (c : Config T) (w : World T) (ops : List Op) :
    ∃ w2, runOps w.clusters.length ops (builtWorld K c w) = some w2 ∧
      Frame (builtWorld K c w) w2 :=
  runOps_frame (builtCluster K c w) w.clusters.length ops (builtWorld K c w)
    (builtWorld_inv K c w)

theorem builtWorld_cluster (K : Collab T) (c : Config T) (w : World T) :
    (builtWorld K c w).clusters[w.clusters.length]? = some (builtCluster K c w) := by
  simp [builtWorld]

/-- UpdateHosts on a cluster whose host set is allocated returns, keeps the stores in
place, and makes the given hosts the membership of the cluster's host set. -/
theorem simpleCluster.UpdateHosts_spec (sc : ClusterRef) (c : simpleCluster T) (w : World T)
    (H : List Host) (hc : w.clusters[sc]? = some c) (hhs : c.hostSet < w.hostSets.length) :
    ∃ w1, simpleCluster.UpdateHosts sc H w = some w1 ∧ w1.clusters = w.clusters ∧
      w1.hostSets.length = w.hostSets.length ∧ hostSet.Hosts c.hostSet w1 = some H := by
  obtain ⟨s, hs1⟩ := lookup_of_lt _ _ hhs
  refine ⟨{ w with
      hostSets := w.hostSets.set c.hostSet
        { s with allHosts := H, healthyHosts := H.filter (fun h => h.health) }
      trace := w.trace ++ [Event.UpdateHosts c.hostSet H] ++
        hostSet.notify c.hostSet s.updateCallbacks }, ?_, rfl, by simp, ?_⟩
  · simp [simpleCluster.UpdateHosts, hostSet.UpdateHosts, hc, hs1]
  · simp [hostSet.Hosts, List.getElem?_set, hhs]

/-- A call of refreshHealthHosts on an allocated host set returns and adds exactly its
own event to the trace. -/
theorem hostSet.refreshHealthHosts_trace (hs : HostSetRef) (host : Host) (w : World T)
    (h : hs < w.hostSets.length) :
    ∃ w1, hostSet.refreshHealthHosts hs host w = some w1 ∧
      w1.trace = w.trace ++ [Event.refreshHealthHosts hs host] := by
  obtain ⟨s, hs1⟩ := lookup_of_lt _ _ h
  unfold hostSet.refreshHealthHosts
  rw [hs1]
  exact ⟨_, rfl, rfl⟩

/-- The TLS error log holds nothing but Errorf calls. -/
theorem tlsErrorLog_errors (r : Except String T.TLSContextManager) :
    ∀ e ∈ (tlsErrorLog r : List (Event T)), ∃ msg, e = Event.Errorf msg := by
  cases r <;> simp [tlsErrorLog]

/-! ### The claims -/

/-- C1: the load balancer LBInstance() returns on the cluster built by NewCluster(c) is
decided at construction by the subset descriptor: with the descriptor disabled it is
NewLoadBalancer(LoadBalancerType(c.LbType), hostSet), with the descriptor enabled it is
NewSubsetLoadBalancer(LoadBalancerType(c.LbType), hostSet, stats, lbSubsetInfo), where
hostSet, stats and lbSubsetInfo are what HostSet(), Info().Stats() and
Info().LbSubsetInfo() return; and after every sequence of later operations
LBInstance() still returns that same load balancer. -/
theorem C1_lbInstance_decided_at_construction (K : Collab T) (c : Config T) (w : World T)
    (ops : List Op) :
    ∃ sc w1 w2 info hs stats sub,
      NewCluster K c w = some (sc, w1) ∧
      simpleCluster.HostSet sc w1 = some hs ∧
      simpleCluster.Info sc w1 = some info ∧
      clusterInfo.Stats info w1 = some stats ∧
      clusterInfo.LbSubsetInfo info w1 = some sub ∧
      sub = K.NewLBSubsetInfo c.LBSubSetConfig ∧
      simpleCluster.LBInstance sc w1 = some
        (if K.IsEnabled sub then
          K.NewSubsetLoadBalancer (toLoadBalancerType c.LbType) hs stats sub
        else
          K.NewLoadBalancer (toLoadBalancerType c.LbType) hs) ∧
      runOps sc ops w1 = some w2 ∧
      simpleCluster.LBInstance sc w2 = simpleCluster.LBInstance sc w1 := by
  obtain ⟨w2, hw2, hf⟩ := built_runOps K c w ops
  refine ⟨w.clusters.length, builtWorld K c w, w2, w.infos.length, w.hostSets.length,
    K.newClusterStats c.Name, K.NewLBSubsetInfo c.LBSubSetConfig,
    newSimpleCluster_eq K c w, ?_, ?_, ?_, ?_, rfl, ?_, hw2, ?_⟩
  · simp [simpleCluster.HostSet, builtWorld_cluster, builtCluster]
  · simp [simpleCluster.Info, builtWorld_cluster, builtCluster]
  · simp [clusterInfo.Stats, builtWorld, infoLiteral]
  · simp [clusterInfo.LbSubsetInfo, builtWorld, infoLiteral]
  · simp [simpleCluster.LBInstance, builtWorld_cluster, builtCluster]
  · simp [simpleCluster.LBInstance, hf.1]

/-- C2: on every cluster whose host set is allocated, UpdateHosts(H) returns and the
membership read through HostSet() is then exactly H; a second UpdateHosts(H) returns
too and leaves the membership equal to what it was after the first call. -/
theorem C2_updateHosts_then_read (sc : ClusterRef) (c : simpleCluster T) (w : World T)
    (H : List Host) (hc : w.clusters[sc]? = some c) (hhs : c.hostSet < w.hostSets.length) :
    ∃ w1 w2 hs,
      simpleCluster.UpdateHosts sc H w = some w1 ∧
      simpleCluster.HostSet sc w1 = some hs ∧
      hostSet.Hosts hs w1 = some H ∧
      simpleCluster.UpdateHosts sc H w1 = some w2 ∧
      simpleCluster.HostSet sc w2 = some hs ∧
      hostSet.Hosts hs w2 = hostSet.Hosts hs w1 := by
  obtain ⟨w1, e1, hc1, hl1, hr1⟩ := simpleCluster.UpdateHosts_spec sc c w H hc hhs
  obtain ⟨w2, e2, hc2, _, hr2⟩ :=
    simpleCluster.UpdateHosts_spec sc c w1 H (by rw [hc1]; exact hc) (by rw [hl1]; exact hhs)
  refine ⟨w1, w2, c.hostSet, e1, ?_, hr1, e2, ?_, hr2.trans hr1.symm⟩
  · simp [simpleCluster.HostSet, hc1, hc]
  · simp [simpleCluster.HostSet, hc2, hc1, hc]

/-- C2 at the cluster of exWorld and the two hosts of exHosts. -/
theorem C2_updateHosts_then_read_witness :
    exWorld.clusters[0]? = some exCluster ∧
    (0 : Nat) < exWorld.hostSets.length ∧
    ∃ w1 w2 hs,
      simpleCluster.UpdateHosts 0 exHosts exWorld = some w1 ∧
      simpleCluster.HostSet 0 w1 = some hs ∧
      hostSet.Hosts hs w1 = some exHosts ∧
      simpleCluster.UpdateHosts 0 exHosts w1 = some w2 ∧
      simpleCluster.HostSet 0 w2 = some hs ∧
      hostSet.Hosts hs w2 = hostSet.Hosts hs w1 :=
  ⟨rfl, by decide,
    C2_updateHosts_then_read 0 exCluster exWorld exHosts rfl (by decide)⟩

/-- C3: on a cluster built with a health check, the one completion callback
newSimpleCluster installed on the checker is the closure over the cluster's host set;
called with changedState false it returns with the world untouched; called with
changedState true, in any world reached by later operations, it is exactly one call
hostSet.refreshHealthHosts(host) on that host set, which returns; and in both cases
the result does not depend on isHealthy. -/
theorem C3_default_callback (K : Collab T) (c : Config T) (w : World T) (ops : List Op)
    (host : Host) (isHealthy : Bool) (hsn : c.HealthCheck.ServiceName ≠ "") :
    ∃ sc w1 w2 cl hs hc h cb,
      newSimpleCluster K c w = some (sc, w1) ∧
      w1.clusters[sc]? = some cl ∧
      cl.hostSet = hs ∧
      cl.healthChecker = some hc ∧
      w1.healthCheckers[hc]? = some h ∧
      h.hostCheckCompleteCbs = [cb] ∧
      runOps sc ops w1 = some w2 ∧
      cb.call host false isHealthy w2 = some w2 ∧
      (∃ w3, cb.call host true isHealthy w2 = some w3 ∧
        hostSet.refreshHealthHosts hs host w2 = some w3 ∧
        w3.trace = w2.trace ++ [Event.refreshHealthHosts hs host] ∧
        refreshCalls w3.trace = refreshCalls w2.trace + 1) ∧
      (∀ changedState : Bool,
        cb.call host changedState isHealthy w2 = cb.call host changedState (!isHealthy) w2) := by
  obtain ⟨w2, hw2, hf⟩ := built_runOps K c w ops
  have hlt : w.hostSets.length < w2.hostSets.length := by
    rw [hf.2.2.1]; simp [builtWorld]
  obtain ⟨w3, hw3, ht3⟩ := hostSet.refreshHealthHosts_trace _ host w2 hlt
  refine ⟨w.clusters.length, builtWorld K c w, w2, builtCluster K c w, w.hostSets.length,
    w.healthCheckers.length,
    ⟨c.HealthCheck, w.clusters.length, [HealthCheckCb.refreshOnChange w.hostSets.length]⟩,
    HealthCheckCb.refreshOnChange w.hostSets.length,
    newSimpleCluster_eq K c w, builtWorld_cluster K c w, rfl, ?_, ?_, rfl, hw2, rfl, ?_, ?_⟩
  · simp [builtCluster, hsn]
  · simp [builtWorld, hsn]
  · refine ⟨w3, ?_, hw3, ht3, ?_⟩
    · simpa [HealthCheckCb.call, defaultHealthCheckCb] using hw3
    · simp [ht3, refreshCalls, List.countP_append]
  · intro changedState
    rfl

/-- C3 at exConfig, from the empty world, with a later UpdateHosts. -/
theorem C3_default_callback_witness :
    exConfig.HealthCheck.ServiceName ≠ "" ∧
    ∃ sc w1 w2 cl hs hc h cb,
      newSimpleCluster exCollab exConfig (World.empty exTypes) = some (sc, w1) ∧
      w1.clusters[sc]? = some cl ∧
      cl.hostSet = hs ∧
      cl.healthChecker = some hc ∧
      w1.healthCheckers[hc]? = some h ∧
      h.hostCheckCompleteCbs = [cb] ∧
      runOps sc [Op.UpdateHosts exHosts] w1 = some w2 ∧
      cb.call ⟨"10.0.0.2:8080", [], true⟩ false true w2 = some w2 ∧
      (∃ w3, cb.call ⟨"10.0.0.2:8080", [], true⟩ true true w2 = some w3 ∧
        hostSet.refreshHealthHosts hs ⟨"10.0.0.2:8080", [], true⟩ w2 = some w3 ∧
        w3.trace = w2.trace ++ [Event.refreshHealthHosts hs ⟨"10.0.0.2:8080", [], true⟩] ∧
        refreshCalls w3.trace = refreshCalls w2.trace + 1) ∧
      (∀ changedState : Bool,
        cb.call ⟨"10.0.0.2:8080", [], true⟩ changedState true w2 =
          cb.call ⟨"10.0.0.2:8080", [], true⟩ changedState (!true) w2) :=
  ⟨by decide,
    C3_default_callback exCollab exConfig (World.empty exTypes) [Op.UpdateHosts exHosts]
      ⟨"10.0.0.2:8080", [], true⟩ true (by decide)⟩

/-- C4: when the TLS context manager constructor reports an error for the configuration,
NewCluster still returns a cluster: its struct is allocated, Info().Name() is the
configured name, HostSet() is an allocated host set, LBInstance() returns, and
Info().TLSMng() is nil; the one call added to the trace before the health check branch is the error log; and the cluster reference, the host set,
its contents, the load balancer and the health checkers are the same as with any other
outcome `alt` of the TLS constructor. -/
theorem C4_tls_failure_absorbed (K : Collab T) (c : Config T) (w : World T) (err : String)
    (alt : T.TLSConfig → InfoRef → clusterInfo T → Except String T.TLSContextManager)
    (herr : K.buildTLSContext c.TLS w.infos.length (infoLiteral K c) = Except.error err) :
    ∃ sc w1 cl info hs s lb,
      NewCluster K c w = some (sc, w1) ∧
      w1.clusters[sc]? = some cl ∧
      simpleCluster.Info sc w1 = some info ∧
      clusterInfo.Name info w1 = some c.Name ∧
      clusterInfo.TLSMng info w1 = some none ∧
      simpleCluster.HostSet sc w1 = some hs ∧
      w1.hostSets[hs]? = some s ∧
      simpleCluster.LBInstance sc w1 = some lb ∧
      (∃ rest, w1.trace = w.trace ++ Event.Errorf err :: rest) ∧
      ∃ w1b,
        NewCluster { K with buildTLSContext := alt } c w = some (sc, w1b) ∧
        w1b.clusters = w1.clusters ∧
        simpleCluster.HostSet sc w1b = some hs ∧
        w1b.hostSets = w1.hostSets ∧
        simpleCluster.LBInstance sc w1b = some lb ∧
        w1b.healthCheckers = w1.healthCheckers := by
  simp only [infoLiteral] at herr
  refine ⟨w.clusters.length, builtWorld K c w, builtCluster K c w, w.infos.length,
    w.hostSets.length, builtHostSet c w, (builtCluster K c w).lbInstance,
    newSimpleCluster_eq K c w, builtWorld_cluster K c w, ?_, ?_, ?_, ?_, ?_, ?_, ?_,
    builtWorld { K with buildTLSContext := alt } c w,
    newSimpleCluster_eq { K with buildTLSContext := alt } c w, ?_, ?_, ?_, ?_, ?_⟩
  · simp [simpleCluster.Info, builtWorld_cluster, builtCluster]
  · simp [clusterInfo.Name, builtWorld, infoLiteral]
  · simp [clusterInfo.TLSMng, builtWorld, infoLiteral, herr]
  · simp [simpleCluster.HostSet, builtWorld_cluster, builtCluster]
  · simp [builtWorld]
  · simp [simpleCluster.LBInstance, builtWorld_cluster]
  · exact ⟨healthCheckCalls c w, by simp [builtWorld, infoLiteral, herr, tlsErrorLog]⟩
  · simp [builtWorld, builtCluster]
  · simp [simpleCluster.HostSet, builtWorld, builtCluster]
  · simp [builtWorld]
  · simp [simpleCluster.LBInstance, builtWorld, builtCluster]
  · simp [builtWorld]

/-- C4 at exConfig, whose TLS settings fail to build, from the empty world, compared
with a constructor that succeeds. -/
theorem C4_tls_failure_absorbed_witness :
    exCollab.buildTLSContext exConfig.TLS (World.empty exTypes).infos.length
      (infoLiteral exCollab exConfig) = Except.error "bad tls" ∧
    ∃ sc w1 cl info hs s lb,
      NewCluster exCollab exConfig (World.empty exTypes) = some (sc, w1) ∧
      w1.clusters[sc]? = some cl ∧
      simpleCluster.Info sc w1 = some info ∧
      clusterInfo.Name info w1 = some exConfig.Name ∧
      clusterInfo.TLSMng info w1 = some none ∧
      simpleCluster.HostSet sc w1 = some hs ∧
      w1.hostSets[hs]? = some s ∧
      simpleCluster.LBInstance sc w1 = some lb ∧
      (∃ rest, w1.trace = (World.empty exTypes).trace ++ Event.Errorf "bad tls" :: rest) ∧
      ∃ w1b,
        NewCluster { exCollab with buildTLSContext := fun _ _ _ => Except.ok "ctx" } exConfig
          (World.empty exTypes) = some (sc, w1b) ∧
        w1b.clusters = w1.clusters ∧
        simpleCluster.HostSet sc w1b = some hs ∧
        w1b.hostSets = w1.hostSets ∧
        simpleCluster.LBInstance sc w1b = some lb ∧
        w1b.healthCheckers = w1.healthCheckers :=
  ⟨rfl,
    C4_tls_failure_absorbed exCollab exConfig (World.empty exTypes) "bad tls"
      (fun _ _ _ => Except.ok "ctx") rfl⟩

/-- C5: the cluster built by newSimpleCluster(c) has a health checker exactly when
c.HealthCheck.ServiceName is not empty; with an empty service name the store of
health checkers is untouched (none created, no completion callback registered), the
new host set has no membership-update callback, and the only call that can have been
added to the trace is the TLS error log (no CreateHealthCheck, no registration, no
GoWithRecover). -/
theorem C5_health_checker_iff_service_name (K : Collab T) (c : Config T) (w : World T) :
    ∃ sc w1 cl,
      newSimpleCluster K c w = some (sc, w1) ∧
      w1.clusters[sc]? = some cl ∧
      (cl.healthChecker.isSome = true ↔ c.HealthCheck.ServiceName ≠ "") ∧
      (c.HealthCheck.ServiceName = "" →
        w1.healthCheckers = w.healthCheckers ∧
        w1.hostSets = w.hostSets ++ [⟨[], [], []⟩] ∧
        ∃ added, w1.trace = w.trace ++ added ∧ ∀ e ∈ added, ∃ msg, e = Event.Errorf msg) := by
  refine ⟨w.clusters.length, builtWorld K c w, builtCluster K c w,
    newSimpleCluster_eq K c w, builtWorld_cluster K c w, ?_, ?_⟩
  · by_cases hsn : c.HealthCheck.ServiceName = "" <;> simp [builtCluster, hsn]
  · intro hsn
    refine ⟨by simp [builtWorld, hsn], by simp [builtWorld, builtHostSet, hsn], ?_⟩
    exact ⟨tlsErrorLog (K.buildTLSContext c.TLS w.infos.length (infoLiteral K c)),
      by simp [builtWorld, healthCheckCalls, hsn], tlsErrorLog_errors _⟩

/-- C6: AddHealthCheckCallbacks(cb) on a cluster without a health checker returns the
world unchanged; on a cluster with an allocated health checker it is the single call
AddHostCheckCompleteCb(cb) on that checker: cb is appended to that checker's
callbacks, that one call is appended to the trace, and the stores of infos, host sets
and clusters are unchanged. -/
theorem C6_addHealthCheckCallbacks (sc : ClusterRef) (c : simpleCluster T) (w : World T)
    (cb : HealthCheckCb) (hc : w.clusters[sc]? = some c) :
    (c.healthChecker = none → simpleCluster.AddHealthCheckCallbacks sc cb w = some w) ∧
    (∀ (k : HealthCheckerRef) (h : healthChecker T),
      c.healthChecker = some k → w.healthCheckers[k]? = some h →
      simpleCluster.AddHealthCheckCallbacks sc cb w =
        healthChecker.AddHostCheckCompleteCb k cb w ∧
      simpleCluster.AddHealthCheckCallbacks sc cb w = some
        { infos := w.infos
          hostSets := w.hostSets
          clusters := w.clusters
          healthCheckers := w.healthCheckers.set k
            { h with hostCheckCompleteCbs := h.hostCheckCompleteCbs ++ [cb] }
          trace := w.trace ++ [Event.AddHostCheckCompleteCb k cb] }) := by
  constructor
  · intro hn
    simp [simpleCluster.AddHealthCheckCallbacks, hc, hn]
  · intro k h hk hh
    constructor
    · simp [simpleCluster.AddHealthCheckCallbacks, hc, hk]
    · simp [simpleCluster.AddHealthCheckCallbacks, healthChecker.AddHostCheckCompleteCb, hc, hk,
        hh]

/-- C6 at the cluster of exWorld, which has no health checker, and at the cluster of
exWorldChecked, which has one. -/
theorem C6_addHealthCheckCallbacks_witness :
    (exWorld.clusters[0]? = some exCluster ∧
      simpleCluster.AddHealthCheckCallbacks 0 (HealthCheckCb.external 7) exWorld =
        some exWorld) ∧
    (exWorldChecked.clusters[0]? = some { exCluster with healthChecker := some 0 } ∧
      simpleCluster.AddHealthCheckCallbacks 0 (HealthCheckCb.external 7) exWorldChecked =
        some { exWorldChecked with
          healthCheckers := [⟨exConfig.HealthCheck, 0,
            [HealthCheckCb.refreshOnChange 0, HealthCheckCb.external 7]⟩]
          trace := [Event.AddHostCheckCompleteCb 0 (HealthCheckCb.external 7)] }) :=
  ⟨⟨rfl, (C6_addHealthCheckCallbacks 0 exCluster exWorld (HealthCheckCb.external 7) rfl).1 rfl⟩,
    ⟨rfl, ((C6_addHealthCheckCallbacks 0 { exCluster with healthChecker := some 0 }
      exWorldChecked (HealthCheckCb.external 7) rfl).2 0
      ⟨exConfig.HealthCheck, 0, [HealthCheckCb.refreshOnChange 0]⟩ rfl rfl).2⟩⟩

/-- C7: the ClusterInfo of the cluster NewCluster(c) builds reports Name() = c.Name,
ClusterType() = c.ClusterType, LbType() = LoadBalancerType(c.LbType),
ConnBufferLimitBytes() = c.ConnBufferLimitBytes, MaxRequestsPerConn() =
c.MaxRequestPerConn, ResourceManager() = NewResourceManager(c.CirBreThresholds),
Stats() = newClusterStats(c.Name) and LbSubsetInfo() = NewLBSubsetInfo(c.LBSubSetConfig). -/
theorem C7_info_reports_configuration (K : Collab T) (c : Config T) (w : World T) :
    ∃ sc w1 info,
      NewCluster K c w = some (sc, w1) ∧
      simpleCluster.Info sc w1 = some info ∧
      clusterInfo.Name info w1 = some c.Name ∧
      clusterInfo.ClusterType info w1 = some c.ClusterType ∧
      clusterInfo.LbType info w1 = some (toLoadBalancerType c.LbType) ∧
      clusterInfo.ConnBufferLimitBytes info w1 = some c.ConnBufferLimitBytes ∧
      clusterInfo.MaxRequestsPerConn info w1 = some c.MaxRequestPerConn ∧
      clusterInfo.ResourceManager info w1 = some (K.NewResourceManager c.CirBreThresholds) ∧
      clusterInfo.Stats info w1 = some (K.newClusterStats c.Name) ∧
      clusterInfo.LbSubsetInfo info w1 = some (K.NewLBSubsetInfo c.LBSubSetConfig) := by
  refine ⟨w.clusters.length, builtWorld K c w, w.infos.length, newSimpleCluster_eq K c w,
    ?_, ?_, ?_, ?_, ?_, ?_, ?_, ?_, ?_⟩
  · simp [simpleCluster.Info, builtWorld_cluster, builtCluster]
  · simp [clusterInfo.Name, builtWorld, infoLiteral]
  · simp [clusterInfo.ClusterType, builtWorld, infoLiteral]
  · simp [clusterInfo.LbType, builtWorld, infoLiteral]
  · simp [clusterInfo.ConnBufferLimitBytes, builtWorld, infoLiteral]
  · simp [clusterInfo.MaxRequestsPerConn, builtWorld, infoLiteral]
  · simp [clusterInfo.ResourceManager, builtWorld, infoLiteral]
  · simp [clusterInfo.Stats, builtWorld, infoLiteral]
  · simp [clusterInfo.LbSubsetInfo, builtWorld, infoLiteral]

/-- C8: after newSimpleCluster returned, every sequence of cluster operations returns
and leaves the cluster struct (its info, healthChecker, lbInstance and hostSet
references) and the clusterInfo struct (all nine fields) exactly as they were, so
Info(), HostSet(), LBInstance() and every ClusterInfo accessor return what they
returned right after construction. -/
theorem C8_fields_never_change (K : Collab T) (c : Config T) (w : World T) (ops : List Op) :
    ∃ sc w1 w2 cl i,
      newSimpleCluster K c w = some (sc, w1) ∧
      w1.clusters[sc]? = some cl ∧
      w1.infos[cl.info]? = some i ∧
      runOps sc ops w1 = some w2 ∧
      w2.clusters[sc]? = some cl ∧
      w2.infos[cl.info]? = some i ∧
      simpleCluster.Info sc w2 = simpleCluster.Info sc w1 ∧
      simpleCluster.HostSet sc w2 = simpleCluster.HostSet sc w1 ∧
      simpleCluster.LBInstance sc w2 = simpleCluster.LBInstance sc w1 ∧
      clusterInfo.Name cl.info w2 = clusterInfo.Name cl.info w1 ∧
      clusterInfo.ClusterType cl.info w2 = clusterInfo.ClusterType cl.info w1 ∧
      clusterInfo.LbType cl.info w2 = clusterInfo.LbType cl.info w1 ∧
      clusterInfo.ConnBufferLimitBytes cl.info w2 = clusterInfo.ConnBufferLimitBytes cl.info w1 ∧
      clusterInfo.MaxRequestsPerConn cl.info w2 = clusterInfo.MaxRequestsPerConn cl.info w1 ∧
      clusterInfo.Stats cl.info w2 = clusterInfo.Stats cl.info w1 ∧
      clusterInfo.ResourceManager cl.info w2 = clusterInfo.ResourceManager cl.info w1 ∧
      clusterInfo.TLSMng cl.info w2 = clusterInfo.TLSMng cl.info w1 ∧
      clusterInfo.LbSubsetInfo cl.info w2 = clusterInfo.LbSubsetInfo cl.info w1 := by
  obtain ⟨w2, hw2, hfc, hfi, _, _⟩ := built_runOps K c w ops
  obtain ⟨i, hi⟩ := lookup_of_lt (builtWorld K c w).infos w.infos.length
    (by simp [builtWorld])
  refine ⟨w.clusters.length, builtWorld K c w, w2, builtCluster K c w, i,
    newSimpleCluster_eq K c w, builtWorld_cluster K c w, hi, hw2,
    by rw [hfc]; exact builtWorld_cluster K c w, by rw [hfi]; exact hi,
    ?_, ?_, ?_, ?_, ?_, ?_, ?_, ?_, ?_, ?_, ?_, ?_⟩ <;>
  simp [simpleCluster.Info, simpleCluster.HostSet, simpleCluster.LBInstance,
    clusterInfo.Name, clusterInfo.ClusterType, clusterInfo.LbType,
    clusterInfo.ConnBufferLimitBytes, clusterInfo.MaxRequestsPerConn, clusterInfo.Stats,
    clusterInfo.ResourceManager, clusterInfo.TLSMng, clusterInfo.LbSubsetInfo, hfc, hfi]

/-- C9: for a configuration with a non-empty HealthCheck.ServiceName, newSimpleCluster
adds exactly one health checker to the store, created from c.HealthCheck and the
cluster it returns, holding exactly one completion callback (the closure over the
cluster's host set); the cluster's host set holds exactly one membership-update
callback, the checker's OnClusterMemberUpdate; and the calls it adds to the trace are,
after at most a TLS error log, in this order: the log line, CreateHealthCheck,
AddHostCheckCompleteCb, AdddMemberUpdateCb, and last one GoWithRecover of the checker's
Start. -/
theorem C9_health_check_wiring (K : Collab T) (c : Config T) (w : World T)
    (hsn : c.HealthCheck.ServiceName ≠ "") :
    ∃ sc w1 cl hs hc tlsLog,
      newSimpleCluster K c w = some (sc, w1) ∧
      w1.clusters[sc]? = some cl ∧
      cl.hostSet = hs ∧
      cl.healthChecker = some hc ∧
      w1.healthCheckers = w.healthCheckers ++
        [⟨c.HealthCheck, sc, [HealthCheckCb.refreshOnChange hs]⟩] ∧
      w1.healthCheckers[hc]? = some ⟨c.HealthCheck, sc, [HealthCheckCb.refreshOnChange hs]⟩ ∧
      w1.hostSets[hs]? = some ⟨[], [], [MemberUpdateCb.OnClusterMemberUpdate hc]⟩ ∧
      (∀ e ∈ tlsLog, ∃ msg, e = Event.Errorf msg) ∧
      w1.trace = w.trace ++ tlsLog ++
        [ Event.Infof c.Name,
          Event.CreateHealthCheck c.HealthCheck sc hc,
          Event.AddHostCheckCompleteCb hc (HealthCheckCb.refreshOnChange hs),
          Event.AdddMemberUpdateCb hs (MemberUpdateCb.OnClusterMemberUpdate hc),
          Event.GoWithRecover (Task.healthCheckerStart hc) ] := by
  refine ⟨w.clusters.length, builtWorld K c w, builtCluster K c w, w.hostSets.length,
    w.healthCheckers.length,
    tlsErrorLog (K.buildTLSContext c.TLS w.infos.length (infoLiteral K c)),
    newSimpleCluster_eq K c w, builtWorld_cluster K c w, rfl,
    ?_, ?_, ?_, ?_, tlsErrorLog_errors _, ?_⟩
  · simp [builtCluster, hsn]
  · simp [builtWorld, hsn]
  · simp [builtWorld, hsn]
  · simp [builtWorld, builtHostSet, hsn]
  · simp [builtWorld, healthCheckCalls, hsn]

/-- C9 at exConfig, from the empty world. -/
theorem C9_health_check_wiring_witness :
    exConfig.HealthCheck.ServiceName ≠ "" ∧
    ∃ sc w1 cl hs hc tlsLog,
      newSimpleCluster exCollab exConfig (World.empty exTypes) = some (sc, w1) ∧
      w1.clusters[sc]? = some cl ∧
      cl.hostSet = hs ∧
      cl.healthChecker = some hc ∧
      w1.healthCheckers = (World.empty exTypes).healthCheckers ++
        [⟨exConfig.HealthCheck, sc, [HealthCheckCb.refreshOnChange hs]⟩] ∧
      w1.healthCheckers[hc]? =
        some ⟨exConfig.HealthCheck, sc, [HealthCheckCb.refreshOnChange hs]⟩ ∧
      w1.hostSets[hs]? = some ⟨[], [], [MemberUpdateCb.OnClusterMemberUpdate hc]⟩ ∧
      (∀ e ∈ tlsLog, ∃ msg, e = Event.Errorf msg) ∧
      w1.trace = (World.empty exTypes).trace ++ tlsLog ++
        [ Event.Infof exConfig.Name,
          Event.CreateHealthCheck exConfig.HealthCheck sc hc,
          Event.AddHostCheckCompleteCb hc (HealthCheckCb.refreshOnChange hs),
          Event.AdddMemberUpdateCb hs (MemberUpdateCb.OnClusterMemberUpdate hc),
          Event.GoWithRecover (Task.healthCheckerStart hc) ] :=
  ⟨by decide, C9_health_check_wiring exCollab exConfig (World.empty exTypes) (by decide)⟩

/-- C10: the cluster newSimpleCluster builds has one host set `hs`: HostSet() returns
it, the load balancer of LBInstance() was constructed over it, and when there is a
health checker its completion callback is the closure over it and the checker's
membership-update callback is registered on it; after any later operations HostSet()
still returns it, UpdateHosts and RemoveHosts are hostSet.UpdateHosts and
hostSet.RemoveHosts on it with the same argument, the closure refreshes it, and after
UpdateHosts(H) the membership of the host set the load balancer was constructed over
is H. -/
theorem C10_single_host_set (K : Collab T) (c : Config T) (w : World T) (ops : List Op)
    (H : List Host) (addrs : List String) (host : Host) (isHealthy : Bool) :
    ∃ sc w1 w2 w3 cl hs s,
      newSimpleCluster K c w = some (sc, w1) ∧
      w1.clusters[sc]? = some cl ∧
      simpleCluster.HostSet sc w1 = some hs ∧
      w1.hostSets[hs]? = some s ∧
      simpleCluster.LBInstance sc w1 = some
        (if K.IsEnabled (K.NewLBSubsetInfo c.LBSubSetConfig) then
          K.NewSubsetLoadBalancer (toLoadBalancerType c.LbType) hs
            (K.newClusterStats c.Name) (K.NewLBSubsetInfo c.LBSubSetConfig)
        else
          K.NewLoadBalancer (toLoadBalancerType c.LbType) hs) ∧
      (∀ hc, cl.healthChecker = some hc →
        (∃ h, w1.healthCheckers[hc]? = some h ∧
          h.hostCheckCompleteCbs = [HealthCheckCb.refreshOnChange hs]) ∧
        s.updateCallbacks = [MemberUpdateCb.OnClusterMemberUpdate hc] ∧
        Event.AdddMemberUpdateCb hs (MemberUpdateCb.OnClusterMemberUpdate hc) ∈ w1.trace) ∧
      (cl.healthChecker = none → s.updateCallbacks = []) ∧
      runOps sc ops w1 = some w2 ∧
      simpleCluster.HostSet sc w2 = some hs ∧
      simpleCluster.UpdateHosts sc H w2 = hostSet.UpdateHosts hs H w2 ∧
      simpleCluster.RemoveHosts sc addrs w2 = hostSet.RemoveHosts hs addrs w2 ∧
      (HealthCheckCb.refreshOnChange hs).call host true isHealthy w2 =
        hostSet.refreshHealthHosts hs host w2 ∧
      simpleCluster.UpdateHosts sc H w2 = some w3 ∧
      simpleCluster.HostSet sc w3 = some hs ∧
      hostSet.Hosts hs w3 = some H ∧
      simpleCluster.LBInstance sc w3 = simpleCluster.LBInstance sc w1 := by
  obtain ⟨w2, hw2, hf⟩ := built_runOps K c w ops
  have hc2 : w2.clusters[w.clusters.length]? = some (builtCluster K c w) := by
    rw [hf.1]; exact builtWorld_cluster K c w
  have hlt : (builtCluster K c w).hostSet < w2.hostSets.length := by
    rw [hf.2.2.1]; simp [builtWorld, builtCluster]
  obtain ⟨w3, hw3, hc3, _, hr3⟩ :=
    simpleCluster.UpdateHosts_spec w.clusters.length (builtCluster K c w) w2 H hc2 hlt
  refine ⟨w.clusters.length, builtWorld K c w, w2, w3, builtCluster K c w, w.hostSets.length,
    builtHostSet c w, newSimpleCluster_eq K c w, builtWorld_cluster K c w, ?_, ?_, ?_, ?_, ?_,
    hw2, ?_, ?_, ?_, rfl, hw3, ?_, hr3, ?_⟩
  · simp [simpleCluster.HostSet, builtWorld_cluster, builtCluster]
  · simp [builtWorld]
  · simp [simpleCluster.LBInstance, builtWorld_cluster, builtCluster]
  · intro hc hhc
    by_cases hsn : c.HealthCheck.ServiceName = ""
    · simp [builtCluster, hsn] at hhc
    · simp [builtCluster, hsn] at hhc
      subst hhc
      simp [builtWorld, builtHostSet, healthCheckCalls, hsn]
  · intro hn
    by_cases hsn : c.HealthCheck.ServiceName = ""
    · simp [builtHostSet, hsn]
    · simp [builtCluster, hsn] at hn
  · simp [simpleCluster.HostSet, hc2, builtCluster]
  · simp [simpleCluster.UpdateHosts, hc2, builtCluster]
  · simp [simpleCluster.RemoveHosts, hc2, builtCluster]
  · simp [simpleCluster.HostSet, hc3, hc2, builtCluster]
  · simp [simpleCluster.LBInstance, hc3, hf.1]

end Cluster
